import Mathlib

/-
Verification of the OAuth2 token lifecycle manager in
src/spotify-mcp/src/spotify_mcp/auth.py.

The Python module is embedded shallowly:
- JSON token dictionaries become association lists over a scalar value type.
- The process environment (client id / secret) becomes an explicit `Env`.
- The credential file and the sequence of network calls / resource events
  become an explicit `World` threaded through each operation.
- Network responses (the probe GET, the token-endpoint POSTs) and the
  outcome of the one-shot callback listener are supplied as oracle inputs.
- Python exceptions (RuntimeError from `_get_credentials` and the timeout
  check, httpx `raise_for_status`, dict KeyError) become `Except AuthErr`.
-/

namespace SpotifyAuth

/-- JSON scalar values that occur in a token dictionary: the token fields are
strings and `expires_in` is an integer. -/
inductive JVal
  | str (s : String)
  | num (n : Int)
deriving DecidableEq

/-- A parsed JSON object such as a Spotify token response: an association
list in key order, with unique keys (as produced by `json.loads`).
`d[k]` with Python subscripting is `dictLookup`; `k in d` is `dictHas`. -/
abbrev TokenDict := List (String × JVal)

/-- Python `d[k]` returning the value when present. -/
def dictLookup (d : TokenDict) (k : String) : Option JVal :=
  List.lookup k d

/-- Python `k in d`. -/
def dictHas (d : TokenDict) (k : String) : Bool :=
  (dictLookup d k).isSome

/-- Python `d[k] = v`: replace the value when the key is present, append the
binding otherwise. -/
def dictSet (d : TokenDict) (k : String) (v : JVal) : TokenDict :=
  if dictHas d k then d.map (fun kv => if kv.1 == k then (kv.1, v) else kv)
  else d ++ [(k, v)]

/-- Errors raised by the Python module, as a typed result.
`authTimedOutOrFailed` is the single
RuntimeError with message "Authorization timed out or failed." raised by
`authorize` when no authorization code was captured, whether because the
listener timed out or because the provider redirected with an error.
`httpStatusError s` is the httpx exception from `response.raise_for_status()`
on a non-2xx status `s`. `keyError k` is the Python KeyError on a missing
dictionary key. -/
inductive AuthErr
  | missingClientCredentials
  | authTimedOutOrFailed
  | httpStatusError (status : Nat)
  | keyError (k : String)
deriving DecidableEq

/-- Ambient configuration: the SPOTIFY_CLIENT_ID and SPOTIFY_CLIENT_SECRET
environment variables as returned by `os.environ.get` (`none` when unset). -/
structure Env where
  clientId : Option String
  clientSecret : Option String
deriving DecidableEq

/-- Python truthiness test `not x` for an optional string: true for `None`
and for the empty string. -/
def falsyStr : Option String → Bool
  | none => true
  | some s => s == ""

/-- Embedding of `_get_credentials` (auth.py lines 18-25): read both
environment variables and raise when either is missing or empty. -/
def get_credentials (env : Env) : Except AuthErr (String × String) :=
  if falsyStr env.clientId || falsyStr env.clientSecret then
    .error .missingClientCredentials
  else
    .ok (env.clientId.getD "", env.clientSecret.getD "")

/-- One network round trip made by the module: the probe
GET https://api.spotify.com/v1/me with a bearer token, or a POST to the
token endpoint with the given grant type. -/
inductive NetCall
  | probeMe (bearer : JVal)
  | tokenPost (grantType : String)
deriving DecidableEq

/-- Resource events of the callback listener in `authorize`:
binding the HTTPServer on port 8888, starting the handler thread, opening
the browser, `thread.join(timeout=120)` (carrying whether the thread had
finished when join returned: the target `server.handle_request` returns
once it has handled one request, so the flag is true exactly when a
request arrived within the budget), and `server.server_close()`. -/
inductive Event
  | serverBind
  | threadStart
  | browserOpen
  | threadJoin (threadFinished : Bool)
  | serverClose
deriving DecidableEq

/-- A provider response to a token-endpoint POST: HTTP status and the parsed
JSON body. -/
structure Response where
  status : Nat
  body : TokenDict
deriving DecidableEq

/-- httpx `response.raise_for_status()` raises unless the status is 2xx. -/
def is2xx (s : Nat) : Bool :=
  200 ≤ s && s < 300

/-- Observable state threaded through the module: the credential file at
TOKEN_PATH (the parsed record it holds, `none` when the file does not
exist; `json.loads` inverts `json.dumps` on these records, and the exact
bytes on disk are `dumps` of the record), plus the trace of network calls
and listener resource events, in order. -/
structure World where
  file : Option TokenDict
  calls : List NetCall
  events : List Event
deriving DecidableEq

/-- The state before any run: no credential file, nothing happened yet. -/
def initialWorld : World :=
  { file := none, calls := [], events := [] }

/-- Embedding of `_save_tokens` (auth.py lines 28-29): overwrite TOKEN_PATH
with `json.dumps(tokens)`. -/
def save_tokens (tokens : TokenDict) (w : World) : World :=
  { w with file := some tokens }

/-- Embedding of `_load_tokens` (auth.py lines 32-35): parse the file when it
exists, return `None` otherwise. -/
def load_tokens (w : World) : Option TokenDict :=
  match w.file with
  | some t => some t
  | none => none

/-- Result of `_CallbackHandler.do_GET`: the value of the class attribute
`auth_code` after the handler ran (it was reset to `None` before the
listener started), the HTTP status sent, and the response body. -/
structure HandlerResult where
  authCode : Option String
  status : Nat
  body : String
deriving DecidableEq

/-- Embedding of `_CallbackHandler.do_GET` (auth.py lines 41-54). The
argument is the parsed query string as produced by `parse_qs`, flattened to
first values: the pairs in order of first occurrence, so `List.lookup k`
is `query[k][0]` when `k in query` and `query.get(k, [d])[0]` is
`(List.lookup k).getD d`. -/
def do_GET (query : List (String × String)) : HandlerResult :=
  match List.lookup "code" query with
  | some c =>
      { authCode := some c
        status := 200
        body := "<h1>Authorization successful!</h1><p>You can close this tab.</p>" }
  | none =>
      let error := (List.lookup "error" query).getD "unknown"
      { authCode := none
        status := 400
        body := "<h1>Authorization failed: " ++ error ++ "</h1>" }

/-- What the one-shot listener receives during the 120 second join budget:
either no redirect at all (timeout), or exactly one GET whose parsed query
string is given (the single request that `server.handle_request` serves). -/
inductive ListenerInput
  | noRequest
  | request (query : List (String × String))
deriving DecidableEq

/-- Whether a redirect reached the listener, i.e. whether the handler thread
(target `server.handle_request`) finished before `thread.join(timeout=120)`
returned. -/
def requestArrived : ListenerInput → Bool
  | .noRequest => false
  | .request _ => true

/-- The value of `_CallbackHandler.auth_code` after the join: set by
`do_GET` when a request arrived, still `None` otherwise. -/
def capturedCode : ListenerInput → Option String
  | .noRequest => none
  | .request q => (do_GET q).authCode

/-- Embedding of `authorize` (auth.py lines 60-97): check credentials, bind
the listener, start the handler thread, open the browser, join with the
120 second budget, close the server, then either raise when no code was
captured or exchange the code at the token endpoint and persist the
resulting token set. `input` is what the listener received and
`exchangeResp` the provider response to the authorization_code POST. -/
def authorize (env : Env) (input : ListenerInput) (exchangeResp : Response)
    (w : World) : Except AuthErr TokenDict × World :=
  match get_credentials env with
  | .error e => (.error e, w)
  | .ok _ =>
    let w1 : World :=
      { w with events := w.events ++
          [.serverBind, .threadStart, .browserOpen,
           .threadJoin (requestArrived input), .serverClose] }
    if falsyStr (capturedCode input) then
      (.error .authTimedOutOrFailed, w1)
    else
      let w2 : World :=
        { w1 with calls := w1.calls ++ [.tokenPost "authorization_code"] }
      if !is2xx exchangeResp.status then
        (.error (.httpStatusError exchangeResp.status), w2)
      else
        let tokens := exchangeResp.body
        (.ok tokens, save_tokens tokens w2)

/-- Lines 114-116 of auth.py: Spotify may or may not return a new refresh
token; when the response body lacks one, re-inject the caller-supplied
refresh token. -/
def refreshedTokens (refreshTok : JVal) (body : TokenDict) : TokenDict :=
  if dictHas body "refresh_token" then body
  else dictSet body "refresh_token" refreshTok

/-- Embedding of `refresh_access_token` (auth.py lines 100-118): check
credentials, POST the refresh_token grant, raise on non-2xx, re-inject the
caller-supplied refresh token when the response body lacks one, persist and
return the new token set. -/
def refresh_access_token (env : Env) (refreshTok : JVal) (resp : Response)
    (w : World) : Except AuthErr TokenDict × World :=
  match get_credentials env with
  | .error e => (.error e, w)
  | .ok _ =>
    let w1 : World := { w with calls := w.calls ++ [.tokenPost "refresh_token"] }
    if !is2xx resp.status then
      (.error (.httpStatusError resp.status), w1)
    else
      let newTokens := refreshedTokens refreshTok resp.body
      (.ok newTokens, save_tokens newTokens w1)

/-- Python `d[k]` as a fallible access: KeyError when the key is absent. -/
def dictGetKey (d : TokenDict) (k : String) : Except AuthErr JVal :=
  match dictLookup d k with
  | some v => .ok v
  | none => .error (.keyError k)

/-- Embedding of `get_access_token` (auth.py lines 121-139): load the stored
tokens; when absent (no file, or an empty record, which is falsy in
Python) run the full authorization flow; otherwise probe the API with the
stored access token and, exactly when the probe status is 401, perform one
refresh exchange; return the access token of whichever token set is
current. `probeStatus` is the status of the GET https://api.spotify.com/v1/me
probe and `refreshResp` the provider response to a refresh POST (consulted
only when that POST happens). -/
def get_access_token (env : Env) (input : ListenerInput)
    (exchangeResp : Response) (probeStatus : Nat) (refreshResp : Response)
    (w : World) : Except AuthErr JVal × World :=
  match load_tokens w with
  | none =>
    match authorize env input exchangeResp w with
    | (.error e, w1) => (.error e, w1)
    | (.ok t, w1) =>
      match dictGetKey t "access_token" with
      | .error e => (.error e, w1)
      | .ok a => (.ok a, w1)
  | some t =>
    if t.isEmpty then
      match authorize env input exchangeResp w with
      | (.error e, w1) => (.error e, w1)
      | (.ok t1, w1) =>
        match dictGetKey t1 "access_token" with
        | .error e => (.error e, w1)
        | .ok a => (.ok a, w1)
    else
      match dictGetKey t "access_token" with
      | .error e => (.error e, w)
      | .ok a =>
        let w1 : World := { w with calls := w.calls ++ [.probeMe a] }
        if probeStatus == 401 then
          match dictGetKey t "refresh_token" with
          | .error e => (.error e, w1)
          | .ok r =>
            match refresh_access_token env r refreshResp w1 with
            | (.error e, w2) => (.error e, w2)
            | (.ok t2, w2) =>
              match dictGetKey t2 "access_token" with
              | .error e => (.error e, w2)
              | .ok a2 => (.ok a2, w2)
        else
          (.ok a, w1)

/-- Replacing the value at key `k` does not change lookups at other keys. -/
theorem lookup_map_setval (d : TokenDict) (k k' : String) (v : JVal)
    (h : (k' == k) = false) :
    List.lookup k' (d.map (fun kv => if kv.1 == k then (kv.1, v) else kv))
      = List.lookup k' d := by
  induction d with
  | nil => rfl
  | cons kv rest ih =>
    obtain ⟨k1, v1⟩ := kv
    simp only [List.map_cons]
    by_cases hc : (k1 == k) = true
    · rw [if_pos hc]
      have hk1 : k1 = k := eq_of_beq hc
      have h1 : (k' == k1) = false := by rw [hk1]; exact h
      simp only [List.lookup, h1]
      simpa using ih
    · rw [if_neg hc]
      cases hck : (k' == k1) with
      | false =>
        simp only [List.lookup, hck]
        simpa using ih
      | true => simp [List.lookup, hck]

/-- Appending a binding for `k` does not change lookups at other keys. -/
theorem lookup_append_single_ne (d : TokenDict) (k k' : String) (v : JVal)
    (h : (k' == k) = false) :
    List.lookup k' (d ++ [(k, v)]) = List.lookup k' d := by
  induction d with
  | nil => simp [List.lookup, h]
  | cons kv rest ih =>
    obtain ⟨k1, v1⟩ := kv
    by_cases hc : (k' == k1) = true
    · simp [List.lookup, hc]
    · simp only [Bool.not_eq_true] at hc
      simp [List.lookup, hc, ih]

/-- `dictSet` leaves every other key unchanged. -/
theorem dictLookup_dictSet_of_ne (d : TokenDict) (k k' : String) (v : JVal)
    (h : (k' == k) = false) :
    dictLookup (dictSet d k v) k' = dictLookup d k' := by
  unfold dictSet dictLookup
  split
  · exact lookup_map_setval d k k' v h
  · exact lookup_append_single_ne d k k' v h

/-- Appending a binding for an absent key makes it the looked-up value. -/
theorem lookup_append_self_of_none (d : TokenDict) (k : String) (v : JVal)
    (h : List.lookup k d = none) :
    List.lookup k (d ++ [(k, v)]) = some v := by
  induction d with
  | nil => simp [List.lookup]
  | cons kv rest ih =>
    obtain ⟨k1, v1⟩ := kv
    cases hck : (k == k1) with
    | true => simp [List.lookup, hck] at h
    | false =>
      simp only [List.cons_append, List.lookup, hck]
      exact ih (by simpa [List.lookup, hck] using h)

/-- `dictSet` on an absent key makes that key present with the new value. -/
theorem dictLookup_dictSet_self (d : TokenDict) (k : String) (v : JVal)
    (h : dictHas d k = false) :
    dictLookup (dictSet d k v) k = some v := by
  have hl : List.lookup k d = none := by
    cases hl2 : List.lookup k d with
    | none => rfl
    | some x =>
      exfalso
      unfold dictHas dictLookup at h
      rw [hl2] at h
      simp at h
  unfold dictSet dictLookup
  rw [if_neg (by simp [h])]
  exact lookup_append_self_of_none d k v hl

/-- A `dictSet` result is never the empty dictionary. -/
theorem dictSet_isEmpty_false (d : TokenDict) (k : String) (v : JVal) :
    (dictSet d k v).isEmpty = false := by
  unfold dictSet
  cases d with
  | nil => simp [dictHas, dictLookup, List.lookup]
  | cons kv rest => split <;> simp

/-- C8: saving a well-formed token set and loading it back returns exactly
the saved record, and loading when no record has ever been saved returns
absent (None) rather than an error. -/
theorem save_load_roundtrip (t : TokenDict) (w : World) :
    load_tokens (save_tokens t w) = some t ∧ load_tokens initialWorld = none :=
  ⟨rfl, rfl⟩

/-- C5: on a GET whose query string carries `code`, the callback handler
captures that code and responds 200 with the success page; on a GET whose
query string carries `error` (and no `code`), no code is captured and the
handler responds 400 with a body surfacing the provider error string. -/
theorem do_GET_code_and_error (q : List (String × String)) :
    (∀ c, List.lookup "code" q = some c →
      do_GET q = ⟨some c, 200,
        "<h1>Authorization successful!</h1><p>You can close this tab.</p>"⟩)
    ∧ (List.lookup "code" q = none → ∀ e, List.lookup "error" q = some e →
      do_GET q = ⟨none, 400,
        "<h1>Authorization failed: " ++ e ++ "</h1>"⟩) := by
  constructor
  · intro c hc
    simp [do_GET, hc]
  · intro hn e he
    simp [do_GET, hn, he]

/-- C5 witness: concrete success and denial redirects. -/
theorem do_GET_code_and_error_witness :
    do_GET [("code", "ABC123")]
      = ⟨some "ABC123", 200,
        "<h1>Authorization successful!</h1><p>You can close this tab.</p>"⟩
    ∧ do_GET [("error", "access_denied")]
      = ⟨none, 400, "<h1>Authorization failed: access_denied</h1>"⟩ :=
  ⟨(do_GET_code_and_error [("code", "ABC123")]).1 "ABC123" (by decide),
   (do_GET_code_and_error [("error", "access_denied")]).2 (by decide)
     "access_denied" (by decide)⟩

/-- C6: when the client id or client secret is absent from the environment,
both the authorization-code exchange flow and the refresh exchange fail
immediately with the missing-client-credentials error and leave the world
untouched: no network call is recorded, no file write happens, nothing is
retried. -/
theorem missing_credentials_no_network (env : Env) (input : ListenerInput)
    (exchangeResp : Response) (r : JVal) (refreshResp : Response) (w : World)
    (h : falsyStr env.clientId = true ∨ falsyStr env.clientSecret = true) :
    authorize env input exchangeResp w
        = (.error .missingClientCredentials, w)
    ∧ refresh_access_token env r refreshResp w
        = (.error .missingClientCredentials, w) := by
  have hcond : (falsyStr env.clientId || falsyStr env.clientSecret) = true := by
    rcases h with h | h <;> simp [h]
  constructor
  · simp [authorize, get_credentials, hcond]
  · simp [refresh_access_token, get_credentials, hcond]

/-- C6 witness: unset client id, concrete inputs. -/
theorem missing_credentials_no_network_witness :
    authorize ⟨none, some "secret"⟩ .noRequest ⟨200, []⟩ initialWorld
        = (.error .missingClientCredentials, initialWorld)
    ∧ refresh_access_token ⟨none, some "secret"⟩ (JVal.str "r") ⟨200, []⟩
        initialWorld
        = (.error .missingClientCredentials, initialWorld) :=
  missing_credentials_no_network ⟨none, some "secret"⟩ .noRequest ⟨200, []⟩
    (JVal.str "r") ⟨200, []⟩ initialWorld (Or.inl rfl)

/-- C2: when the provider response to the refresh_token grant is successful
but its body omits refresh_token, the token set returned by
refresh_access_token carries the caller-supplied refresh token r, and the
persisted record is exactly the returned set. -/
theorem refresh_token_retained (env : Env) (r : JVal) (resp : Response)
    (w : World)
    (hid : falsyStr env.clientId = false)
    (hsec : falsyStr env.clientSecret = false)
    (hok : is2xx resp.status = true)
    (habsent : dictLookup resp.body "refresh_token" = none) :
    ((refresh_access_token env r resp w).1.toOption.bind
        (fun t2 => dictLookup t2 "refresh_token")) = some r
    ∧ (refresh_access_token env r resp w).2.file
        = (refresh_access_token env r resp w).1.toOption := by
  have hcond : (falsyStr env.clientId || falsyStr env.clientSecret) = false := by
    simp [hid, hsec]
  have hhas : dictHas resp.body "refresh_token" = false := by
    simp [dictHas, habsent]
  constructor
  · simp [refresh_access_token, refreshedTokens, get_credentials, hcond, hok,
      hhas, save_tokens, Except.toOption,
      dictLookup_dictSet_self resp.body "refresh_token" r hhas]
  · simp [refresh_access_token, refreshedTokens, get_credentials, hcond, hok,
      hhas, save_tokens, Except.toOption]

/-- C2 witness: a 200 refresh response whose body lacks refresh_token. -/
theorem refresh_token_retained_witness :
    ((refresh_access_token ⟨some "id", some "secret"⟩ (JVal.str "r0")
        ⟨200, [("access_token", JVal.str "a2")]⟩ initialWorld).1.toOption.bind
        (fun t2 => dictLookup t2 "refresh_token")) = some (JVal.str "r0")
    ∧ (refresh_access_token ⟨some "id", some "secret"⟩ (JVal.str "r0")
        ⟨200, [("access_token", JVal.str "a2")]⟩ initialWorld).2.file
        = (refresh_access_token ⟨some "id", some "secret"⟩ (JVal.str "r0")
        ⟨200, [("access_token", JVal.str "a2")]⟩ initialWorld).1.toOption :=
  refresh_token_retained ⟨some "id", some "secret"⟩ (JVal.str "r0")
    ⟨200, [("access_token", JVal.str "a2")]⟩ initialWorld rfl rfl (by decide)
    (by decide)

/-- Sample environment with both client secrets configured. -/
def envOK : Env := ⟨some "id", some "secret"⟩

/-- Sample stored token set, as persisted by an earlier authorization. -/
def sampleStored : TokenDict :=
  [("access_token", JVal.str "a1"), ("token_type", JVal.str "Bearer"),
   ("expires_in", JVal.num 3600), ("refresh_token", JVal.str "r1")]

/-- Sample world whose credential file holds `sampleStored`. -/
def sampleWorld : World := ⟨some sampleStored, [], []⟩

/-- Sample successful refresh response whose body omits refresh_token. -/
def sampleRefreshResp : Response :=
  ⟨200, [("access_token", JVal.str "a2"), ("token_type", JVal.str "Bearer"),
         ("expires_in", JVal.num 3600)]⟩

/-- C3: with a stored token set, on any probe status other than 401 the
supervisor returns the cached access token unchanged, records only the
probe call (no token-endpoint POST, hence no refresh exchange), and its
behaviour is insensitive to the stored expires_in field: overwriting
expires_in with an arbitrary value yields the same returned token and the
same recorded calls (no local expiry check is ever consulted). -/
theorem non_401_returns_cached (env : Env) (input : ListenerInput)
    (exchangeResp : Response) (refreshResp : Response) (w : World)
    (t : TokenDict) (a v : JVal) (probeStatus : Nat)
    (hfile : w.file = some t) (hne : t.isEmpty = false)
    (ha : dictLookup t "access_token" = some a)
    (hs : (probeStatus == 401) = false) :
    get_access_token env input exchangeResp probeStatus refreshResp w
      = (.ok a, { w with calls := w.calls ++ [.probeMe a] })
    ∧ get_access_token env input exchangeResp probeStatus refreshResp
        { w with file := some (dictSet t "expires_in" v) }
      = (.ok a, { w with file := some (dictSet t "expires_in" v),
                         calls := w.calls ++ [.probeMe a] }) := by
  have ha2 : dictLookup (dictSet t "expires_in" v) "access_token" = some a := by
    rw [dictLookup_dictSet_of_ne t "expires_in" "access_token" v (by decide)]
    exact ha
  have hne2 := dictSet_isEmpty_false t "expires_in" v
  constructor
  · simp [get_access_token, load_tokens, hfile, hne, dictGetKey, ha, hs]
  · simp [get_access_token, load_tokens, hne2, dictGetKey, ha2, hs]

/-- C3 witness: probe status 503 against the sample stored token set. -/
theorem non_401_returns_cached_witness :
    get_access_token envOK .noRequest ⟨200, []⟩ 503 sampleRefreshResp
        sampleWorld
      = (.ok (JVal.str "a1"),
         { sampleWorld with
             calls := sampleWorld.calls ++ [.probeMe (JVal.str "a1")] })
    ∧ get_access_token envOK .noRequest ⟨200, []⟩ 503 sampleRefreshResp
        { sampleWorld with
            file := some (dictSet sampleStored "expires_in" (JVal.num 9999)) }
      = (.ok (JVal.str "a1"),
         { sampleWorld with
             file := some (dictSet sampleStored "expires_in" (JVal.num 9999))
             calls := sampleWorld.calls ++ [.probeMe (JVal.str "a1")] }) :=
  non_401_returns_cached envOK .noRequest ⟨200, []⟩ sampleRefreshResp
    sampleWorld sampleStored (JVal.str "a1") (JVal.num 9999) 503 rfl rfl
    (by decide) (by decide)

/-- C10: with a stored token set, when the probe status is anything other
than 401 the supervisor performs no write to the credential file: the
on-disk record after the call is exactly the record that was there
before. -/
theorem non_401_no_file_write (env : Env) (input : ListenerInput)
    (exchangeResp : Response) (refreshResp : Response) (w : World)
    (t : TokenDict) (probeStatus : Nat)
    (hfile : w.file = some t) (hne : t.isEmpty = false)
    (hs : (probeStatus == 401) = false) :
    (get_access_token env input exchangeResp probeStatus refreshResp w).2.file
      = w.file := by
  unfold get_access_token
  simp only [load_tokens, hfile]
  simp only [hne, Bool.false_eq_true, if_false]
  cases hak : dictGetKey t "access_token" with
  | error e => exact hfile
  | ok a => simp [hs, hfile]

/-- C10 witness: probe status 500 leaves the sample file untouched. -/
theorem non_401_no_file_write_witness :
    (get_access_token envOK .noRequest ⟨200, []⟩ 500 sampleRefreshResp
        sampleWorld).2.file = sampleWorld.file :=
  non_401_no_file_write envOK .noRequest ⟨200, []⟩ sampleRefreshResp
    sampleWorld sampleStored 500 rfl rfl (by decide)

/-- C1: with a stored token set, when the probe returns 401 and the refresh
exchange succeeds, exactly one token-endpoint POST happens (the
refresh_token grant; never two, and no authorization_code POST), no
authorization flow is started (no listener events), the persisted record
is exactly the token set produced by the refresh exchange, and the value
returned to the caller is the access_token of that refreshed set. -/
theorem refresh_on_401_exactly_once (env : Env) (input : ListenerInput)
    (exchangeResp : Response) (refreshResp : Response) (w : World)
    (t : TokenDict) (a r a2 : JVal)
    (hfile : w.file = some t) (hne : t.isEmpty = false)
    (ha : dictLookup t "access_token" = some a)
    (hr : dictLookup t "refresh_token" = some r)
    (hid : falsyStr env.clientId = false)
    (hsec : falsyStr env.clientSecret = false)
    (hok : is2xx refreshResp.status = true)
    (ha2 : dictLookup refreshResp.body "access_token" = some a2) :
    (get_access_token env input exchangeResp 401 refreshResp w).1 = .ok a2
    ∧ (get_access_token env input exchangeResp 401 refreshResp w).2.calls
        = w.calls ++ [.probeMe a, .tokenPost "refresh_token"]
    ∧ (get_access_token env input exchangeResp 401 refreshResp w).2.events
        = w.events
    ∧ (get_access_token env input exchangeResp 401 refreshResp w).2.file
        = (refresh_access_token env r refreshResp w).1.toOption
    ∧ ((get_access_token env input exchangeResp 401 refreshResp w).2.file.bind
        (fun t2 => dictLookup t2 "access_token")) = some a2 := by
  have hcond : (falsyStr env.clientId || falsyStr env.clientSecret) = false := by
    simp [hid, hsec]
  have haccess : dictLookup (refreshedTokens r refreshResp.body) "access_token"
      = some a2 := by
    unfold refreshedTokens
    split
    · exact ha2
    · rw [dictLookup_dictSet_of_ne refreshResp.body "refresh_token"
        "access_token" r (by decide)]
      exact ha2
  have main : get_access_token env input exchangeResp 401 refreshResp w
      = (.ok a2,
         { w with file := some (refreshedTokens r refreshResp.body),
                  calls := w.calls ++ [.probeMe a, .tokenPost "refresh_token"] }) := by
    simp [get_access_token, load_tokens, hfile, hne, dictGetKey, ha, hr,
      refresh_access_token, get_credentials, hcond, hok, save_tokens, haccess]
  have mainR : (refresh_access_token env r refreshResp w).1
      = .ok (refreshedTokens r refreshResp.body) := by
    simp [refresh_access_token, get_credentials, hcond, hok, save_tokens]
  refine ⟨?_, ?_, ?_, ?_, ?_⟩
  · rw [main]
  · rw [main]
  · rw [main]
  · rw [main, mainR]
    rfl
  · rw [main]
    simpa using haccess

/-- C1 witness: probe 401 against the sample stored set with a successful
refresh response that omits refresh_token. -/
theorem refresh_on_401_exactly_once_witness :
    (get_access_token envOK .noRequest ⟨200, []⟩ 401 sampleRefreshResp
        sampleWorld).1 = .ok (JVal.str "a2")
    ∧ (get_access_token envOK .noRequest ⟨200, []⟩ 401 sampleRefreshResp
        sampleWorld).2.calls
        = sampleWorld.calls
            ++ [.probeMe (JVal.str "a1"), .tokenPost "refresh_token"]
    ∧ (get_access_token envOK .noRequest ⟨200, []⟩ 401 sampleRefreshResp
        sampleWorld).2.events = sampleWorld.events
    ∧ (get_access_token envOK .noRequest ⟨200, []⟩ 401 sampleRefreshResp
        sampleWorld).2.file
        = (refresh_access_token envOK (JVal.str "r1") sampleRefreshResp
            sampleWorld).1.toOption
    ∧ ((get_access_token envOK .noRequest ⟨200, []⟩ 401 sampleRefreshResp
        sampleWorld).2.file.bind
        (fun t2 => dictLookup t2 "access_token")) = some (JVal.str "a2") :=
  refresh_on_401_exactly_once envOK .noRequest ⟨200, []⟩ sampleRefreshResp
    sampleWorld sampleStored (JVal.str "a1") (JVal.str "r1") (JVal.str "a2")
    rfl rfl (by decide) (by decide) rfl rfl (by decide) (by decide)

/-- C4 counterexample: a provider denial redirect (query error=access_denied)
and a pure listener timeout make authorize fail with the very same
RuntimeError, so the caller cannot distinguish a timeout from a denial:
the claim that timeout surfaces as a distinct TimedOut error is false. -/
theorem timeout_and_denial_same_error :
    (authorize envOK (.request [("error", "access_denied")]) ⟨200, []⟩
        initialWorld).1
      = (authorize envOK .noRequest ⟨200, []⟩ initialWorld).1
    ∧ (authorize envOK .noRequest ⟨200, []⟩ initialWorld).1
      = .error .authTimedOutOrFailed := by
  constructor
  · rfl
  · rfl

/-- C4 amended: whenever the client credentials are configured and no
authorization code was captured — because the listener timed out with no
redirect, or because the provider redirected with an error — authorize
fails with the one undifferentiated RuntimeError (message "Authorization
timed out or failed."); timeout and provider denial are surfaced
identically, not as distinct errors. -/
theorem no_code_single_error (env : Env) (input : ListenerInput)
    (exchangeResp : Response) (w : World)
    (hid : falsyStr env.clientId = false)
    (hsec : falsyStr env.clientSecret = false)
    (hnone : falsyStr (capturedCode input) = true) :
    (authorize env input exchangeResp w).1 = .error .authTimedOutOrFailed := by
  have hcond : (falsyStr env.clientId || falsyStr env.clientSecret) = false := by
    simp [hid, hsec]
  simp [authorize, get_credentials, hcond, hnone]

/-- C4 amended witness: a denial redirect with configured credentials. -/
theorem no_code_single_error_witness :
    (authorize envOK (.request [("error", "access_denied")]) ⟨200, []⟩
        initialWorld).1 = .error .authTimedOutOrFailed :=
  no_code_single_error envOK (.request [("error", "access_denied")])
    ⟨200, []⟩ initialWorld rfl rfl (by decide)

/-- C9 counterexample: on a pure timeout (no redirect ever arrives),
thread.join(timeout=120) returns while the handler thread is still running
(threadFinished = false) and server_close() then releases the socket
anyway: the execution unit is abandoned, not joined, in that outcome, so
the claim that the unit is joined before the socket is released regardless
of outcome is false. -/
theorem timeout_join_abandons_thread :
    (authorize envOK .noRequest ⟨200, []⟩ initialWorld).2.events
      = [.serverBind, .threadStart, .browserOpen, .threadJoin false,
         .serverClose]
    ∧ (authorize envOK .noRequest ⟨200, []⟩ initialWorld).1
      = .error .authTimedOutOrFailed := by
  constructor
  · rfl
  · rfl

/-- C9 amended: whenever the client credentials are configured, every
invocation of authorize emits the same resource discipline in order —
bind the listener socket, start the handler thread, open the browser,
join with the 120 second budget, close the server socket — all before the
flow returns, in every outcome; the join finds the thread finished exactly
when a request arrived, so on a pure timeout the still-running thread is
abandoned, although the listening port is still released before
returning. -/
theorem listener_teardown_order (env : Env) (input : ListenerInput)
    (exchangeResp : Response) (w : World)
    (hid : falsyStr env.clientId = false)
    (hsec : falsyStr env.clientSecret = false) :
    (authorize env input exchangeResp w).2.events
      = w.events ++ [.serverBind, .threadStart, .browserOpen,
          .threadJoin (requestArrived input), .serverClose] := by
  have hcond : (falsyStr env.clientId || falsyStr env.clientSecret) = false := by
    simp [hid, hsec]
  unfold authorize
  simp only [get_credentials, hcond, Bool.false_eq_true, if_false]
  split
  · rfl
  · split
    · rfl
    · simp [save_tokens]

/-- C9 amended witness: a successful capture with configured credentials. -/
theorem listener_teardown_order_witness :
    (authorize envOK (.request [("code", "ABC123")]) ⟨200, []⟩
        initialWorld).2.events
      = initialWorld.events ++ [.serverBind, .threadStart, .browserOpen,
          .threadJoin (requestArrived (.request [("code", "ABC123")])),
          .serverClose] :=
  listener_teardown_order envOK (.request [("code", "ABC123")]) ⟨200, []⟩
    initialWorld rfl rfl

/-- JSON string escaping as performed by json.dumps on the token fields:
backslash and double quote are escaped with a backslash (the only escapes
these records need). -/
def jsonEscape (s : String) : String :=
  String.mk (s.data.foldr
    (fun c acc => if c = '"' ∨ c = '\\' then '\\' :: c :: acc else c :: acc)
    [])

/-- json.dumps of a JSON scalar. -/
def jvalDump : JVal → String
  | .str s => "\"" ++ jsonEscape s ++ "\""
  | .num n => toString n

/-- json.dumps of a token dictionary with the default separators: the exact
bytes `_save_tokens` writes to TOKEN_PATH. -/
def dumps (d : TokenDict) : String :=
  "\x7b" ++ String.intercalate ", "
      (d.map (fun kv => "\"" ++ jsonEscape kv.1 ++ "\": " ++ jvalDump kv.2))
    ++ "\x7d"

/-- Byte-level file states a concurrent reader can observe while
`TOKEN_PATH.write_text(data)` runs, starting from previous contents `old`:
`write_text` opens the file with mode w, truncating it, and then writes
the data, so the observable states are the previous contents (before the
open), each proper prefix of the data — including the empty file right
after truncation — and finally the complete data. -/
def writeTextObservable (old data : String) : List String :=
  old :: ((List.range data.length).map (fun k => data.take k) ++ [data])

/-- Observable credential-file states during `_save_tokens tokens` when the
file previously held the bytes `old`. -/
def saveTokensObservable (old : String) (tokens : TokenDict) : List String :=
  writeTextObservable old (dumps tokens)

/-- C7 counterexample: during `_save_tokens` of a new record over an old one,
the empty file is an observable state, and it is neither the complete
previous record nor the complete new record: the claim that a reader only
ever observes one of the two complete records is false (the write is a
plain overwrite, not write-to-temp-then-rename). -/
theorem save_not_atomic :
    "" ∈ saveTokensObservable (dumps [("access_token", JVal.str "old")])
        [("access_token", JVal.str "new")]
    ∧ "" ≠ dumps [("access_token", JVal.str "old")]
    ∧ "" ≠ dumps [("access_token", JVal.str "new")] := by
  refine ⟨?_, by decide, by decide⟩
  unfold saveTokensObservable writeTextObservable
  decide

/-- C7 amended: `_save_tokens` is a plain truncating overwrite of the
credential file, not an atomic replace: a concurrent reader may observe
intermediate states, and every observable state is the complete previous
record, the complete new record, or a (possibly empty) prefix of the new
record; the final state is the complete new record. -/
theorem save_observable_states (old : String) (t : TokenDict) (s : String)
    (hs : s ∈ saveTokensObservable old t) :
    s = old ∨ s = dumps t ∨ ∃ k, s = (dumps t).take k := by
  unfold saveTokensObservable writeTextObservable at hs
  rcases List.mem_cons.mp hs with h | h
  · exact Or.inl h
  · rcases List.mem_append.mp h with h | h
    · rcases List.mem_map.mp h with ⟨k, hk, hs2⟩
      exact Or.inr (Or.inr ⟨k, hs2.symm⟩)
    · exact Or.inr (Or.inl (List.mem_singleton.mp h))

/-- C7 amended witness: the truncated empty file observed mid-save. -/
theorem save_observable_states_witness :
    "" = dumps [("access_token", JVal.str "old")]
    ∨ "" = dumps [("access_token", JVal.str "new")]
    ∨ ∃ k, "" = (dumps [("access_token", JVal.str "new")]).take k :=
  save_observable_states (dumps [("access_token", JVal.str "old")])
    [("access_token", JVal.str "new")] ""
    (by unfold saveTokensObservable writeTextObservable; decide)

end SpotifyAuth
